import Mathlib

/-!
Shallow embedding of `src/squid_monitor.py` (squid-monitor repository):
the persistent health ledger (`StateManager`), the transition policy
(`StateManager.should_send_alert`), the ledger update
(`StateManager.update_state`), the notification dispatcher
(`ServiceMonitor.send_email_alert`), and the check orchestrator
(`ServiceMonitor.run_check`, `main`).

Timestamps are modelled as integers (the Python code stores
`datetime.isoformat()` strings and compares parsed datetimes; the ordered
abelian group of instants is all the policy uses).  `None` becomes
`Option.none`.  Exceptions are modelled with `Except`.
-/

namespace SquidMonitor

/-- The persisted monitoring state (the five keys of the dict built in
`StateManager._load_state` / mutated by `StateManager.update_state`). -/
structure Ledger where
  last_check : Option Int
  last_status : Option Bool
  last_alert_time : Option Int
  consecutive_failures : Int
  last_success_time : Option Int
deriving DecidableEq, Repr

/-- The fresh/default state dict returned by `_load_state` when the state
file is missing or unreadable (lines 158-164). -/
def initialLedger : Ledger :=
  { last_check := none
    last_status := none
    last_alert_time := none
    consecutive_failures := 0
    last_success_time := none }

/-- Embedding of `StateManager.should_send_alert` (lines 171-190).  `current_status` is
the boolean health signal; returns whether an alert should be sent.
The Python truthiness test `if self.state['last_alert_time']:` becomes the
`match` on the optional timestamp. -/
def should_send_alert (st : Ledger) (current_status : Bool)
    (cooldown now : Int) : Bool :=
  if current_status then
    -- Service is up: recovery alert exactly when the last status was down
    if st.last_status = some false then true else false
  else if st.last_status = none ∨ st.last_status = some true then
    -- First failure or transition from up to down
    true
  else
    -- Check cooldown period
    match st.last_alert_time with
    | some t => decide (now - t > cooldown)
    | none => false

/-- The three-way alert decision of the spec's Transition Policy.  The code
computes it in `run_check` (lines 441-450) as the pair
(`should_alert`, `is_recovery`). -/
inductive AlertDecision
  | Suppressed
  | RaiseFailure
  | RaiseRecovery
deriving DecidableEq, Repr

/-- The decision actually taken by `ServiceMonitor.run_check` lines 441-450:
`should_alert` from the policy, and `is_recovery = is_active and
last_status is False`. -/
def alertDecision (st : Ledger) (is_active : Bool)
    (cooldown now : Int) : AlertDecision :=
  if should_send_alert st is_active cooldown now then
    if is_active = true ∧ st.last_status = some false then
      .RaiseRecovery
    else
      .RaiseFailure
  else
    .Suppressed

/-- Embedding of `StateManager.update_state` (lines 192-206), without the trailing
`save_state` call (persistence is modelled separately). -/
def update_state (st : Ledger) (status : Bool) (alert_sent : Bool)
    (now : Int) : Ledger :=
  { last_check := some now
    last_status := some status
    consecutive_failures :=
      if status then 0 else st.consecutive_failures + 1
    last_success_time :=
      if status then some now else st.last_success_time
    last_alert_time :=
      if alert_sent then some now else st.last_alert_time }

/-- Outcome of one call to `ServiceMonitor.send_email_alert`: the boolean
returned to the caller, the backoff sleeps performed (in order), and the
zero-based indices of the transport attempts actually made. -/
structure SendResult where
  success : Bool
  delays : List Nat
  attempted : List Nat
deriving DecidableEq, Repr

/-- The retry loop `for attempt in range(attempts)` of `send_email_alert`
(lines 311-340), recursing over the list of remaining attempt indices.
`transport i = true` models attempt `i` succeeding; `false` models the
attempt body raising (caught at line 334).  A failed attempt with
`attempt < attempts - 1` sleeps `delay * 2 ** attempt` (line 338). -/
def sendLoop (transport : Nat → Bool) (delay : Nat) (attempts : Nat) :
    List Nat → SendResult
  | [] => { success := false, delays := [], attempted := [] }
  | i :: rest =>
    if transport i then
      { success := true, delays := [], attempted := [i] }
    else
      let r := sendLoop transport delay attempts rest
      if i < attempts - 1 then
        { success := r.success
          delays := delay * 2 ^ i :: r.delays
          attempted := i :: r.attempted }
      else
        { success := r.success, delays := r.delays, attempted := i :: r.attempted }

/-- Embedding of `ServiceMonitor.send_email_alert` (lines 301-340).  In dry-run mode it
logs and returns `True` before touching the transport (lines 303-305);
otherwise it runs the retry loop and returns `False` after exhaustion
(line 340).  The function is total: every transport outcome yields a
boolean, never an exception. -/
def send_email_alert (dry_run : Bool) (transport : Nat → Bool)
    (attempts delay : Nat) : SendResult :=
  if dry_run then
    { success := true, delays := [], attempted := [] }
  else
    sendLoop transport delay attempts (List.range attempts)

/-- Result of one `ServiceMonitor.run_check` cycle (lines 430-471), before
persistence: the updated in-memory ledger, whether the policy asked for an
alert, and the dispatcher outcome when it was invoked. -/
structure CheckResult where
  ledger : Ledger
  alerted : Bool
  send : Option SendResult
deriving DecidableEq, Repr

/-- Embedding of `ServiceMonitor.run_check` (lines 430-471) as a pure state transformer:
probe result `is_active` in, new ledger out.  When the policy fires, the
dispatcher result's boolean is passed to `update_state` as `alert_sent`
(line 464); otherwise `alert_sent=False` (line 467). -/
def run_check (st : Ledger) (is_active : Bool) (cooldown now : Int)
    (dry_run : Bool) (transport : Nat → Bool) (attempts delay : Nat) :
    CheckResult :=
  if should_send_alert st is_active cooldown now then
    let r := send_email_alert dry_run transport attempts delay
    { ledger := update_state st is_active r.success now
      alerted := true
      send := some r }
  else
    { ledger := update_state st is_active false now
      alerted := false
      send := none }

/-! ### Persistence: the state file (`_load_state` / `save_state`) -/

/-- JSON values, as produced by `json.load` / consumed by `json.dump`.
Numbers are modelled as integers: the state file only ever holds ints,
booleans, nulls and (timestamp) strings, and timestamps are already
abstracted to integers. -/
inductive Json
  | null
  | bool (b : Bool)
  | num (n : Int)
  | str (s : String)
  | arr (elems : List Json)
  | obj (fields : List (String × Json))

/-- Association-list lookup used to read a key of a parsed JSON object
(Python dict indexing). -/
def lookupField (key : String) : List (String × Json) → Option Json
  | [] => none
  | (k, v) :: rest => if k = key then some v else lookupField key rest

/-- Read a key from a JSON value; `none` when the value is not an object or
lacks the key. -/
def Json.getField (j : Json) (key : String) : Option Json :=
  match j with
  | .obj fields => lookupField key fields
  | _ => none

/-- What the backing store can present to `_load_state`: no file, a file
whose open/read raises, a file whose contents `json.load` rejects, or a
successfully parsed JSON value. -/
inductive StoredContent
  | missing
  | unreadable
  | parseError
  | parsed (v : Json)

/-- The JSON image of the fresh default state dict (lines 158-164). -/
def defaultStateJson : Json :=
  .obj [("last_check", .null), ("last_status", .null),
        ("last_alert_time", .null), ("consecutive_failures", .num 0),
        ("last_success_time", .null)]

/-- Embedding of `StateManager._load_state` (lines 149-164), together with the log lines
it emits.  A missing file skips the `try`; an open/read or parse exception
is swallowed by `except Exception: pass` (lines 155-156); in every
non-parsed case the default dict is returned.  A successfully parsed value
is returned verbatim — no structural validation.  No path logs anything. -/
def load_state : StoredContent → Json × List String
  | .parsed v => (v, [])
  | _ => (defaultStateJson, [])

/-- Serialization of a ledger by `save_state`'s `json.dump` (lines 166-169):
each `None` becomes JSON `null`, timestamps and the failure counter become
numbers, the status stays a boolean. -/
def optIntJson : Option Int → Json
  | none => .null
  | some t => .num t

/-- JSON image of an optional boolean field. -/
def optBoolJson : Option Bool → Json
  | none => .null
  | some b => .bool b

/-- Embedding of `StateManager.save_state` (lines 166-169): the JSON record written for a
ledger. -/
def save_state (l : Ledger) : Json :=
  .obj [("last_check", optIntJson l.last_check),
        ("last_status", optBoolJson l.last_status),
        ("last_alert_time", optIntJson l.last_alert_time),
        ("consecutive_failures", .num l.consecutive_failures),
        ("last_success_time", optIntJson l.last_success_time)]

/-- Decode an optional-timestamp field back from its JSON image. -/
def jsonOptInt : Option Json → Option (Option Int)
  | some .null => some none
  | some (.num t) => some (some t)
  | _ => none

/-- Decode an optional-boolean field back from its JSON image. -/
def jsonOptBool : Option Json → Option (Option Bool)
  | some .null => some none
  | some (.bool b) => some (some b)
  | _ => none

/-- Decode an integer field back from its JSON image. -/
def jsonInt : Option Json → Option Int
  | some (.num n) => some n
  | _ => none

/-- Read the five ledger fields out of a JSON record; `none` if any is
missing or has the wrong shape. -/
def jsonToLedger (j : Json) : Option Ledger := do
  let lc ← jsonOptInt (j.getField "last_check")
  let ls ← jsonOptBool (j.getField "last_status")
  let la ← jsonOptInt (j.getField "last_alert_time")
  let cf ← jsonInt (j.getField "consecutive_failures")
  let lsu ← jsonOptInt (j.getField "last_success_time")
  pure { last_check := lc, last_status := ls, last_alert_time := la,
         consecutive_failures := cf, last_success_time := lsu }

/-- Modelled from the spec's words ("structurally invalid"): a stored JSON
value is a structurally valid ledger record when all five fields decode. -/
def structurallyValid (j : Json) : Bool :=
  (jsonToLedger j).isSome

/-! ### Exception propagation: save failures and the two operating modes -/

/-- Embedding of `StateManager.save_state` viewed as a fallible operation: the `open` /
`json.dump` at lines 168-169 raises (an `OSError`) when the backing
location is unwritable, and the method has no exception handling. -/
def save_state_io (writable : Bool) (l : Ledger) : Except String Json :=
  if writable then .ok (save_state l) else .error "PersistenceError"

/-- Embedding of `StateManager.update_state` including its trailing `save_state` call
(line 206): the in-memory dict is mutated first, then the save may raise,
and the exception propagates to the caller. -/
def update_state_io (st : Ledger) (status alert_sent : Bool) (now : Int)
    (writable : Bool) : Except String Ledger :=
  let st' := update_state st status alert_sent now
  match save_state_io writable st' with
  | .ok _ => .ok st'
  | .error e => .error e

/-- Embedding of `ServiceMonitor.run_check` with the persistence step included: an
exception raised by the final `update_state` call (lines 464/467)
propagates out of `run_check`, aborting the rest of the cycle (the
`Check complete` log at lines 469-471 is skipped). -/
def run_check_io (st : Ledger) (is_active : Bool) (cooldown now : Int)
    (dry_run : Bool) (transport : Nat → Bool) (attempts delay : Nat)
    (writable : Bool) : Except String Ledger :=
  if should_send_alert st is_active cooldown now then
    let r := send_email_alert dry_run transport attempts delay
    update_state_io st is_active r.success now writable
  else
    update_state_io st is_active false now writable

/-- How one cycle's outcome is handled by `main` (lines 547-560). -/
inductive CycleOutcome
  | completed
  | fatalExit (code : Nat)
  | loggedAndRetryAfterRecoveryDelay
deriving DecidableEq, Repr

/-- Single-shot mode (`--once`, lines 547-548): `run_check` is called with
no handler between it and `main`'s outer `try`; an exception reaches
lines 562-564, which print `Fatal error` and call `sys.exit(1)`. -/
def main_once (st : Ledger) (is_active : Bool) (cooldown now : Int)
    (dry_run : Bool) (transport : Nat → Bool) (attempts delay : Nat)
    (writable : Bool) : CycleOutcome :=
  match run_check_io st is_active cooldown now dry_run transport attempts
      delay writable with
  | .ok _ => .completed
  | .error _ => .fatalExit 1

/-- One iteration of the continuous loop (lines 551-560): an exception from
`run_check` is caught at line 558, logged, and the loop sleeps 60 seconds
before retrying; the process does not terminate. -/
def main_loop_iteration (st : Ledger) (is_active : Bool) (cooldown now : Int)
    (dry_run : Bool) (transport : Nat → Bool) (attempts delay : Nat)
    (writable : Bool) : CycleOutcome :=
  match run_check_io st is_active cooldown now dry_run transport attempts
      delay writable with
  | .ok _ => .completed
  | .error _ => .loggedAndRetryAfterRecoveryDelay

/-! ### Helper lemmas -/

/-- In the down/down branch with a recorded alert time, the policy reduces
to the strict cooldown comparison (lines 185-190). -/
theorem should_send_alert_down_down (st : Ledger) (cooldown now t : Int)
    (hs : st.last_status = some false) (ha : st.last_alert_time = some t) :
    should_send_alert st false cooldown now = decide (now - t > cooldown) := by
  simp [should_send_alert, hs, ha]

/-- The retry loop succeeds exactly when some attempt in the remaining list
succeeds. -/
theorem sendLoop_success_eq_any (transport : Nat → Bool) (delay attempts : Nat) :
    ∀ l : List Nat,
      (sendLoop transport delay attempts l).success = l.any transport := by
  intro l
  induction l with
  | nil => rfl
  | cons i rest ih =>
    by_cases h : transport i
    · simp [sendLoop, h]
    · by_cases h2 : i < attempts - 1 <;> simp [sendLoop, h, h2, ih]

/-- The retry loop never makes more attempts than it has indices left. -/
theorem sendLoop_attempted_le (transport : Nat → Bool) (delay attempts : Nat) :
    ∀ l : List Nat,
      (sendLoop transport delay attempts l).attempted.length ≤ l.length := by
  intro l
  induction l with
  | nil => simp [sendLoop]
  | cons i rest ih =>
    by_cases h : transport i
    · simp [sendLoop, h]
    · have hrest := ih
      by_cases h2 : i < attempts - 1 <;> simp [sendLoop, h, h2] <;> omega

/-! ### Claims -/

/-- C1, counterexample: with `last_status = down`, current health down, and
`last_alert_time` absent, the code's decision is `Suppressed`, not
`RaiseFailure` as the claim states — the Python truthiness test
`if self.state['last_alert_time']:` skips the cooldown branch and falls
through to `return False` (line 190). -/
theorem C1_counterexample :
    alertDecision
      { last_check := some 0, last_status := some false,
        last_alert_time := none, consecutive_failures := 1,
        last_success_time := none } false 3600 100 = .Suppressed ∧
    alertDecision
      { last_check := some 0, last_status := some false,
        last_alert_time := none, consecutive_failures := 1,
        last_success_time := none } false 3600 100 ≠ .RaiseFailure := by
  constructor
  · rfl
  · decide

/-- C1, amended: for every ledger with `last_status == down`, current health
down, and `last_alert_time` absent, the decision is `Suppressed` — a
missing timestamp suppresses the alert rather than being treated as
"never alerted". -/
theorem C1_amended_missing_timestamp_suppresses (st : Ledger)
    (cooldown now : Int) (hs : st.last_status = some false)
    (ha : st.last_alert_time = none) :
    alertDecision st false cooldown now = .Suppressed := by
  simp [alertDecision, should_send_alert, hs, ha]

/-- C1, witness for the amended theorem at a concrete ledger. -/
theorem C1_amended_witness :
    alertDecision
      { last_check := some 0, last_status := some false,
        last_alert_time := none, consecutive_failures := 2,
        last_success_time := some 0 } false 3600 999 = .Suppressed :=
  C1_amended_missing_timestamp_suppresses _ 3600 999 rfl rfl

/-- C2: with `last_status == down`, current health down, and a recorded
`last_alert_time`, the decision is `RaiseFailure` exactly when
`now - last_alert_time > cooldown` (strict), `Suppressed` exactly when
`now - last_alert_time <= cooldown`, and in particular `Suppressed` at the
exact cooldown boundary. -/
theorem C2_cooldown_strict (st : Ledger) (cooldown now t : Int)
    (hs : st.last_status = some false) (ha : st.last_alert_time = some t) :
    (alertDecision st false cooldown now = .RaiseFailure ↔
      now - t > cooldown) ∧
    (alertDecision st false cooldown now = .Suppressed ↔
      now - t ≤ cooldown) ∧
    (now - t = cooldown → alertDecision st false cooldown now = .Suppressed) := by
  have hd := should_send_alert_down_down st cooldown now t hs ha
  by_cases hc : now - t > cooldown
  · simp [alertDecision, hd, hc]
    omega
  · simp [alertDecision, hd, hc]
    omega

/-- C2, witness: Scenario B of the spec — cooldown 3600, alert recorded at
time 0, check at time 3700 raises; and the boundary case 3600 suppresses. -/
theorem C2_witness :
    alertDecision
      { last_check := some 0, last_status := some false,
        last_alert_time := some 0, consecutive_failures := 1,
        last_success_time := none } false 3600 3700 = .RaiseFailure ∧
    alertDecision
      { last_check := some 0, last_status := some false,
        last_alert_time := some 0, consecutive_failures := 1,
        last_success_time := none } false 3600 3600 = .Suppressed :=
  ⟨(C2_cooldown_strict _ 3600 3700 0 rfl rfl).1.mpr (by decide),
   (C2_cooldown_strict _ 3600 3600 0 rfl rfl).2.2 (by decide)⟩

/-- C3: a down-to-up transition always decides `RaiseRecovery` (whatever
`last_alert_time` and the cooldown are); with current health up and any
other `last_status` the decision is `Suppressed`; and `RaiseRecovery` is
produced in no other situation. -/
theorem C3_recovery (st : Ledger) (cooldown now : Int) :
    (st.last_status = some false →
      alertDecision st true cooldown now = .RaiseRecovery) ∧
    (st.last_status ≠ some false →
      alertDecision st true cooldown now = .Suppressed) ∧
    (∀ is_active : Bool,
      alertDecision st is_active cooldown now = .RaiseRecovery →
        is_active = true ∧ st.last_status = some false) := by
  refine ⟨?_, ?_, ?_⟩
  · intro hs
    simp [alertDecision, should_send_alert, hs]
  · intro hs
    simp [alertDecision, should_send_alert, hs]
  · intro is_active h
    by_cases hrec : is_active = true ∧ st.last_status = some false
    · exact hrec
    · exfalso
      unfold alertDecision at h
      rcases hb : should_send_alert st is_active cooldown now with _ | _ <;>
        simp [hb, hrec] at h

/-- C3, witness: Scenario D (down then up decides recovery), plus an up/up
cycle staying suppressed, plus an extraction of the only-if direction at a
concrete recovery decision. -/
theorem C3_witness :
    alertDecision
      { last_check := some 0, last_status := some false,
        last_alert_time := some 0, consecutive_failures := 4,
        last_success_time := none } true 3600 50 = .RaiseRecovery ∧
    alertDecision
      { last_check := some 0, last_status := some true,
        last_alert_time := some 0, consecutive_failures := 0,
        last_success_time := some 0 } true 3600 50 = .Suppressed :=
  ⟨(C3_recovery _ 3600 50).1 rfl,
   (C3_recovery _ 3600 50).2.1 (by decide)⟩

/-- C4: when every one of the `attempts` configured transport attempts
fails, `send_email_alert` returns `false` to its caller (the function is
total, so no error escapes), and the cycle's ledger update leaves
`last_alert_time` unchanged — both through `update_state` with
`alert_sent = false` and through the whole `run_check` cycle. -/
theorem C4_exhausted_attempts (transport : Nat → Bool)
    (attempts delay : Nat) (st : Ledger) (is_active : Bool)
    (cooldown now : Int)
    (hfail : ∀ i, i < attempts → transport i = false) :
    (send_email_alert false transport attempts delay).success = false ∧
    (update_state st is_active false now).last_alert_time =
      st.last_alert_time ∧
    (run_check st is_active cooldown now false transport attempts
        delay).ledger.last_alert_time = st.last_alert_time := by
  have hs : (send_email_alert false transport attempts delay).success = false := by
    rw [send_email_alert]
    simp only [if_neg (by simp : ¬(false = true))]
    rw [sendLoop_success_eq_any]
    simp only [List.any_eq_false]
    intro i hi
    simp [hfail i (List.mem_range.mp hi)]
  refine ⟨hs, by simp [update_state], ?_⟩
  rw [run_check]
  by_cases hq : should_send_alert st is_active cooldown now = true
  · simp only [hq, if_true]
    simp [update_state, hs]
  · simp only [hq, if_false, Bool.not_eq_true] at *
    simp [hq, update_state]

/-- C4, witness: with a transport that always fails and 3 attempts, the
dispatcher reports failure and a down cycle keeps `last_alert_time`. -/
theorem C4_witness :
    (send_email_alert false (fun _ => false) 3 5).success = false ∧
    (update_state
      { last_check := some 0, last_status := some false,
        last_alert_time := some 7, consecutive_failures := 1,
        last_success_time := none } false false 100).last_alert_time = some 7 ∧
    (run_check
      { last_check := some 0, last_status := some false,
        last_alert_time := some 7, consecutive_failures := 1,
        last_success_time := none } false 3600 100 false (fun _ => false)
      3 5).ledger.last_alert_time = some 7 :=
  C4_exhausted_attempts (fun _ => false) 3 5 _ false 3600 100
    (fun _ _ => rfl)

/-- C5: the dispatcher makes at most `attempts` transport attempts, its
overall result is success exactly when some attempt in range succeeds,
a first-attempt success ends the loop at once with no delay, *Scenario E*
(transport failing at attempts 0 and 1, succeeding at attempt 2, retry
count 3) yields overall success with backoff sleeps `base * 2^0` then
`base * 2^1`, and full exhaustion of 3 attempts sleeps only twice — no
delay after the final attempt. -/
theorem C5_dispatcher (transport : Nat → Bool) (attempts delay : Nat) :
    (send_email_alert false transport attempts delay).attempted.length ≤
      attempts ∧
    (send_email_alert false transport attempts delay).success =
      (List.range attempts).any transport ∧
    send_email_alert false (fun _ => true) 3 delay =
      { success := true, delays := [], attempted := [0] } ∧
    send_email_alert false (fun i => decide (i = 2)) 3 delay =
      { success := true, delays := [delay * 2 ^ 0, delay * 2 ^ 1],
        attempted := [0, 1, 2] } ∧
    send_email_alert false (fun _ => false) 3 delay =
      { success := false, delays := [delay * 2 ^ 0, delay * 2 ^ 1],
        attempted := [0, 1, 2] } := by
  refine ⟨?_, ?_, rfl, rfl, rfl⟩
  · have h := sendLoop_attempted_le transport delay attempts
      (List.range attempts)
    simpa [send_email_alert] using h
  · simp [send_email_alert, sendLoop_success_eq_any]

/-- C9: `update_state` records the observed status, re-establishes the
invariant `last_status == up → consecutive_failures == 0` unconditionally,
resets the counter and stamps `last_success_time` on an up cycle,
increments the counter by exactly one on a down cycle, and therefore keeps
the counter non-negative. -/
theorem C9_update_state_invariant (st : Ledger) (status alert_sent : Bool)
    (now : Int) :
    (update_state st status alert_sent now).last_status = some status ∧
    ((update_state st status alert_sent now).last_status = some true →
      (update_state st status alert_sent now).consecutive_failures = 0) ∧
    (status = true →
      (update_state st status alert_sent now).consecutive_failures = 0 ∧
      (update_state st status alert_sent now).last_success_time = some now) ∧
    (status = false →
      (update_state st status alert_sent now).consecutive_failures =
        st.consecutive_failures + 1) ∧
    (0 ≤ st.consecutive_failures →
      0 ≤ (update_state st status alert_sent now).consecutive_failures) := by
  cases status <;> (simp [update_state]; try omega)

/-- C9, witness: a down cycle from the fresh ledger (Scenario A's update)
keeps the counter non-negative and the invariant intact. -/
theorem C9_witness :
    (update_state initialLedger false false 10).last_status = some false ∧
    (update_state initialLedger false false 10).consecutive_failures =
      initialLedger.consecutive_failures + 1 ∧
    (0 ≤ (update_state initialLedger false false 10).consecutive_failures) :=
  ⟨(C9_update_state_invariant initialLedger false false 10).1,
   (C9_update_state_invariant initialLedger false false 10).2.2.2.1 rfl,
   (C9_update_state_invariant initialLedger false false 10).2.2.2.2
     (by decide)⟩

/-- C10: with the dry-run flag set, `send_email_alert` reports success for
every transport, making zero transport attempts and sleeping zero backoff
delays; consequently any cycle whose decision is not `Suppressed` passes
`alert_sent = true` to the ledger update and stamps `last_alert_time` with
the cycle's time, exactly as a delivered alert would. -/
theorem C10_dry_run (transport : Nat → Bool) (attempts delay : Nat)
    (st : Ledger) (is_active : Bool) (cooldown now : Int) :
    send_email_alert true transport attempts delay =
      { success := true, delays := [], attempted := [] } ∧
    (alertDecision st is_active cooldown now ≠ .Suppressed →
      (run_check st is_active cooldown now true transport attempts
          delay).ledger.last_alert_time = some now ∧
      (run_check st is_active cooldown now true transport attempts
          delay).send =
        some { success := true, delays := [], attempted := [] }) := by
  refine ⟨rfl, ?_⟩
  intro h
  rcases hq : should_send_alert st is_active cooldown now with _ | _
  · exact absurd (by simp [alertDecision, hq]) h
  · constructor <;> simp [run_check, hq, send_email_alert, update_state]

/-- C10, witness: a fresh-failure cycle (decision `RaiseFailure`) in dry-run
mode records the alert time. -/
theorem C10_witness :
    (run_check initialLedger false 3600 42 true (fun _ => false) 3
        5).ledger.last_alert_time = some 42 :=
  ((C10_dry_run (fun _ => false) 3 5 initialLedger false 3600 42).2
    (by decide)).1

/-- C6, counterexample: the backing store holding the structurally invalid
(but parseable) JSON record `{}` refutes the claim — `_load_state` returns
`{}` verbatim instead of the zero-value ledger, and even an unparseable
file produces no log line (`except Exception: pass`, lines 155-156). -/
theorem C6_counterexample :
    structurallyValid (Json.obj []) = false ∧
    (load_state (.parsed (Json.obj []))).1 = Json.obj [] ∧
    Json.obj [] ≠ defaultStateJson ∧
    (load_state .parseError).2 = [] := by
  refine ⟨rfl, rfl, ?_, rfl⟩
  intro h
  simp [defaultStateJson] at h

/-- C6, amended: `_load_state` never fails — a missing, unreadable, or
unparseable backing store yields the zero-value ledger (which decodes to
the all-null/zero `Ledger`) — but silently: no path logs anything, and a
value that parses as JSON is returned verbatim with no structural
validation. -/
theorem C6_amended_load (c : StoredContent) :
    ((c = .missing ∨ c = .unreadable ∨ c = .parseError) →
      load_state c = (defaultStateJson, [])) ∧
    (∀ v, c = .parsed v → load_state c = (v, [])) ∧
    (load_state c).2 = [] ∧
    jsonToLedger defaultStateJson = some initialLedger := by
  refine ⟨?_, ?_, ?_, rfl⟩
  · rintro (rfl | rfl | rfl) <;> rfl
  · rintro v rfl
    rfl
  · cases c <;> rfl

/-- C6, witness: a missing state file loads as the zero-value ledger. -/
theorem C6_amended_witness :
    load_state .missing = (defaultStateJson, []) :=
  (C6_amended_load .missing).1 (Or.inl rfl)

/-- C7, counterexample: in single-shot mode (`--once`) an unwritable state
file is fatal — `save_state` (lines 166-169) and `update_state` have no
exception handling, `run_check`'s exception reaches `main`'s outer
handler (lines 562-564), which prints `Fatal error` and exits with
status 1 — refuting the claim that a save failure is non-fatal in both
operating modes. -/
theorem C7_counterexample :
    main_once initialLedger false 3600 0 true (fun _ => false) 3 5 false =
      .fatalExit 1 ∧
    main_once initialLedger false 3600 0 true (fun _ => false) 3 5 false ≠
      .completed := by
  refine ⟨rfl, ?_⟩
  decide

/-- C7, amended: a save failure aborts the cycle and is non-fatal only in
continuous mode, where the loop's handler (lines 558-560) logs it and
retries after the fixed recovery delay; in single-shot mode it propagates
and terminates the process with exit status 1.  With a writable store both
modes complete the cycle. -/
theorem C7_amended_save_failure (st : Ledger) (is_active : Bool)
    (cooldown now : Int) (dry_run : Bool) (transport : Nat → Bool)
    (attempts delay : Nat) :
    main_once st is_active cooldown now dry_run transport attempts delay
      false = .fatalExit 1 ∧
    main_loop_iteration st is_active cooldown now dry_run transport attempts
      delay false = .loggedAndRetryAfterRecoveryDelay ∧
    main_once st is_active cooldown now dry_run transport attempts delay
      true = .completed ∧
    main_loop_iteration st is_active cooldown now dry_run transport attempts
      delay true = .completed := by
  rcases hq : should_send_alert st is_active cooldown now with _ | _ <;>
    simp [main_once, main_loop_iteration, run_check_io, update_state_io,
      save_state_io, hq]

/-- C8: serializing any ledger with `save_state` and loading the written
record back recovers all five fields exactly, including every combination
of null timestamps and null status. -/
theorem C8_round_trip (l : Ledger) :
    jsonToLedger ((load_state (.parsed (save_state l))).1) = some l := by
  obtain ⟨lc, ls, la, cf, lsu⟩ := l
  cases lc <;> cases ls <;> cases la <;> cases lsu <;> rfl

end SquidMonitor
